import Mathlib

/-!
Verification development for the Industrial_Internet TCP-to-database ingestion
server (`src/server.py`).

The development shallowly embeds the Python code:

* Python JSON values (`json.loads` results) become the inductive `Json`.
  Python `int` and `float` are both modelled by `ℚ` (exact rationals; IEEE
  rounding is below this abstraction). Python `bool` is a separate
  constructor, but — as in CPython, where `bool` is a subclass of `int` —
  it counts as numeric for `isinstance(x, (int, float))` checks.
  JSON `null` and Python `None` are identified as `Json.null` (CPython uses
  the same object for both).
* A timezone-aware UTC `datetime` is in bijection with its instant, so the
  resolved timestamp is modelled as `ℚ` — seconds since the Unix epoch.
* Fallible Python code returns `Except PyErr`; the `PyErr` constructors are
  exactly the exception classes the embedded code can raise.
* The ambient clock `datetime.now(timezone.utc)` becomes an explicit `now`
  argument.
-/

/-- The exceptions that `parse_message_line` can raise: `ValueError`
(raised explicitly for empty lines and invalid JSON) and `AttributeError`
(raised by CPython when `.get` is called on a non-`dict` object). -/
inductive PyErr where
  | valueError (msg : String)
  | attributeError (msg : String)
deriving DecidableEq, Repr

/-- A Python value as produced by `json.loads`. `num` stands for both
Python `int` and `float` (exact rationals). Objects are association lists
in insertion order, with unique keys (as a Python `dict`). -/
inductive Json where
  | null
  | bool (b : Bool)
  | num (q : ℚ)
  | str (s : String)
  | arr (xs : List Json)
  | obj (kvs : List (String × Json))

mutual

/-- Boolean equality on `Json`, used to build decidable equality for the
nested inductive. -/
def Json.beq : Json → Json → Bool
  | .null, .null => true
  | .bool a, .bool b => a == b
  | .num a, .num b => a == b
  | .str a, .str b => a == b
  | .arr xs, .arr ys => Json.beqList xs ys
  | .obj xs, .obj ys => Json.beqObj xs ys
  | _, _ => false

/-- Pointwise `Json.beq` on lists. -/
def Json.beqList : List Json → List Json → Bool
  | [], [] => true
  | x :: xs, y :: ys => Json.beq x y && Json.beqList xs ys
  | _, _ => false

/-- Pointwise `Json.beq` on key-value lists. -/
def Json.beqObj : List (String × Json) → List (String × Json) → Bool
  | [], [] => true
  | (k, v) :: xs, (k', v') :: ys => k == k' && Json.beq v v' && Json.beqObj xs ys
  | _, _ => false

end

mutual

def Json.beq_iff : ∀ a b : Json, Json.beq a b = true ↔ a = b
  | .null, b => by cases b <;> simp [Json.beq]
  | .bool a, b => by cases b <;> simp [Json.beq]
  | .num a, b => by cases b <;> simp [Json.beq]
  | .str a, b => by cases b <;> simp [Json.beq]
  | .arr xs, b => by
      cases b <;> simp [Json.beq]
      exact Json.beqList_iff xs _
  | .obj xs, b => by
      cases b <;> simp [Json.beq]
      exact Json.beqObj_iff xs _

def Json.beqList_iff : ∀ xs ys : List Json, Json.beqList xs ys = true ↔ xs = ys
  | [], ys => by cases ys <;> simp [Json.beqList]
  | x :: xs, ys => by
      cases ys with
      | nil => simp [Json.beqList]
      | cons y ys =>
        simp [Json.beqList, Bool.and_eq_true, Json.beq_iff x y, Json.beqList_iff xs ys]

def Json.beqObj_iff : ∀ xs ys : List (String × Json), Json.beqObj xs ys = true ↔ xs = ys
  | [], ys => by cases ys <;> simp [Json.beqObj]
  | (k, v) :: xs, ys => by
      cases ys with
      | nil => simp [Json.beqObj]
      | cons y ys =>
        obtain ⟨k', v'⟩ := y
        simp [Json.beqObj, Bool.and_eq_true, Json.beq_iff v v', Json.beqObj_iff xs ys,
          and_assoc]

end

instance : DecidableEq Json := fun a b => decidable_of_iff _ (Json.beq_iff a b)

namespace Json

/-- Python truthiness: `None`, `False`, `0`, `0.0`, `""`, `[]`, `{}` are
falsy; everything else is truthy. -/
def truthy : Json → Bool
  | .null => false
  | .bool b => b
  | .num q => q != 0
  | .str s => s != ""
  | .arr xs => !xs.isEmpty
  | .obj kvs => !kvs.isEmpty

/-- The Python type name, as it appears in `AttributeError` messages.
`num` prints `int` when the value is integral, `float` otherwise (a
`float` with integral value would also print `float`; the model merges
the two numeric types). -/
def pyTypeName : Json → String
  | .null => "NoneType"
  | .bool _ => "bool"
  | .num q => if q.den = 1 then "int" else "float"
  | .str _ => "str"
  | .arr _ => "list"
  | .obj _ => "dict"

/-- `isinstance(x, (int, float))`. In CPython `bool` is a subclass of
`int`, so booleans satisfy this check. -/
def isNumericPy : Json → Bool
  | .num _ => true
  | .bool _ => true
  | _ => false

/-- `float(x)` for the values that pass `isNumericPy`. -/
def pyFloat : Json → ℚ
  | .num q => q
  | .bool b => if b then 1 else 0
  | _ => 0

/-- First-match association lookup (a Python `dict` has unique keys, so
first match is the only match). -/
def lookup (kvs : List (String × Json)) (k : String) : Option Json :=
  (kvs.find? (fun kv => kv.1 == k)).map (fun kv => kv.2)

/-- `obj.get(k)`: the mapped value, or `None` when the key is absent;
calling `.get` on a non-`dict` raises `AttributeError`. -/
def pyGet (j : Json) (k : String) : Except PyErr Json :=
  match j with
  | .obj kvs => .ok ((lookup kvs k).getD .null)
  | v => .error (.attributeError ("'" ++ v.pyTypeName ++ "' object has no attribute 'get'"))

end Json

/-- Rendering of a Python number. Integral values print like Python
`int`s. Non-integral values print as `num/den`; Python prints a decimal
float `repr` instead, but no embedded code path depends on that rendering
(both are injective and deterministic). -/
def renderNum (q : ℚ) : String :=
  if q.den = 1 then
    (if q.num < 0 then "-" ++ Nat.repr q.num.natAbs else Nat.repr q.num.natAbs)
  else
    (if q.num < 0 then "-" ++ Nat.repr q.num.natAbs else Nat.repr q.num.natAbs)
      ++ "/" ++ Nat.repr q.den

/-- The left-brace character (written via its code point). -/
def lbrace : Char := Char.ofNat 123

/-- The right-brace character (written via its code point). -/
def rbrace : Char := Char.ofNat 125

/-- Hexadecimal digit for values below 16. -/
def hexDigit (n : ℕ) : Char :=
  if n < 10 then Char.ofNat (48 + n) else Char.ofNat (87 + n)

/-- JSON string escaping as performed by `json.dumps(..., ensure_ascii=False)`:
quote, backslash and named control escapes, `\u00XX` for other controls,
everything else (including non-ASCII) verbatim. -/
def escapeJsonChar (c : Char) : String :=
  if c = Char.ofNat 34 then "\\\""
  else if c = '\\' then "\\\\"
  else if c = '\n' then "\\n"
  else if c = '\r' then "\\r"
  else if c = '\t' then "\\t"
  else if c = Char.ofNat 8 then "\\b"
  else if c = Char.ofNat 12 then "\\f"
  else if c.toNat < 32 then
    "\\u00" ++ String.mk [hexDigit (c.toNat / 16), hexDigit (c.toNat % 16)]
  else String.singleton c

/-- Escape a whole string for JSON output. -/
def escapeJsonString (s : String) : String :=
  String.join (s.data.map escapeJsonChar)

mutual

/-- `json.dumps(obj, ensure_ascii=False)` with the default separators
`", "` and `": "`. -/
def json_dumps : Json → String
  | .null => "null"
  | .bool b => if b then "true" else "false"
  | .num q => renderNum q
  | .str s => "\"" ++ escapeJsonString s ++ "\""
  | .arr xs => "[" ++ json_dumpsArr xs ++ "]"
  | .obj kvs => String.singleton lbrace ++ json_dumpsObj kvs ++ String.singleton rbrace

/-- Comma-separated rendering of array elements. -/
def json_dumpsArr : List Json → String
  | [] => ""
  | [x] => json_dumps x
  | x :: xs => json_dumps x ++ ", " ++ json_dumpsArr xs

/-- Comma-separated rendering of object members. -/
def json_dumpsObj : List (String × Json) → String
  | [] => ""
  | [(k, v)] => "\"" ++ escapeJsonString k ++ "\": " ++ json_dumps v
  | (k, v) :: kvs =>
      "\"" ++ escapeJsonString k ++ "\": " ++ json_dumps v ++ ", " ++ json_dumpsObj kvs

end

/-- Python `str(x)`. Exact for `None`, booleans, numbers and strings — the
cases the embedded code can reach with observable effect. For containers
Python uses `repr` with single quotes; the model renders them JSON-style,
which is equally unparseable by `fromisoformat`, the only consumer. -/
def Json.pyStr : Json → String
  | .null => "None"
  | .bool b => if b then "True" else "False"
  | .num q => renderNum q
  | .str s => s
  | v => json_dumps v

/-- JSON whitespace (the four characters `json.loads` skips). -/
def isJsonWs (c : Char) : Bool :=
  c == ' ' || c == '\t' || c == '\n' || c == '\r'

/-- Drop leading JSON whitespace. -/
def skipWs : List Char → List Char
  | [] => []
  | c :: rest => if isJsonWs c then skipWs rest else c :: rest

/-- Value of a hexadecimal digit character. -/
def hexVal? (c : Char) : Option ℕ :=
  if c.isDigit then some (c.toNat - 48)
  else if 'a' ≤ c ∧ c ≤ 'f' then some (c.toNat - 87)
  else if 'A' ≤ c ∧ c ≤ 'F' then some (c.toNat - 55)
  else none

/-- Single-character JSON string escapes. -/
def escChar? (e : Char) : Option Char :=
  if e == Char.ofNat 34 then some (Char.ofNat 34)
  else if e == '\\' then some '\\'
  else if e == '/' then some '/'
  else if e == 'b' then some (Char.ofNat 8)
  else if e == 'f' then some (Char.ofNat 12)
  else if e == 'n' then some '\n'
  else if e == 'r' then some '\r'
  else if e == 't' then some '\t'
  else none

/-- Body of a JSON string after the opening quote: returns the decoded
characters and the input following the closing quote. Unescaped control
characters and invalid escapes are rejected, as by `json.loads` in strict
mode. A `\uXXXX` escape denoting a surrogate decodes to U+FFFD: Lean
`Char` cannot carry lone surrogates, and no embedded code path inspects
such strings (surrogate-pair combining is likewise omitted). -/
def parseJsonStringBody : List Char → Option (List Char × List Char)
  | [] => none
  | c :: rest =>
    if c == Char.ofNat 34 then some ([], rest)
    else if c == '\\' then
      match rest with
      | 'u' :: h1 :: h2 :: h3 :: h4 :: rest2 =>
        (match hexVal? h1, hexVal? h2, hexVal? h3, hexVal? h4 with
        | some a, some b, some c2, some d =>
          let n := ((a * 16 + b) * 16 + c2) * 16 + d
          let ch := if 55296 ≤ n && n ≤ 57343 then Char.ofNat 65533 else Char.ofNat n
          (parseJsonStringBody rest2).map (fun p => (ch :: p.1, p.2))
        | _, _, _, _ => none)
      | e :: rest2 =>
        (match escChar? e with
        | some ch => (parseJsonStringBody rest2).map (fun p => (ch :: p.1, p.2))
        | none => none)
      | [] => none
    else if c.toNat < 32 then none
    else (parseJsonStringBody rest).map (fun p => (c :: p.1, p.2))

/-- Greedily take decimal digits. -/
def takeDigits : List Char → (List ℕ × List Char)
  | [] => ([], [])
  | c :: rest =>
    if c.isDigit then
      let p := takeDigits rest
      ((c.toNat - 48) :: p.1, p.2)
    else ([], c :: rest)

/-- Natural number from decimal digits (most significant first). -/
def digitsToNat (ds : List ℕ) : ℕ := ds.foldl (fun a d => a * 10 + d) 0

/-- Optional fraction part `.digits`; a dot not followed by a digit is not
consumed (the number token simply ends, as with Python's number regex). -/
def parseFracPart : List Char → (ℚ × List Char)
  | '.' :: c :: rest =>
    if c.isDigit then
      let p := takeDigits rest
      let digits := (c.toNat - 48) :: p.1
      (((digitsToNat digits : ℕ) : ℚ) / (10 : ℚ) ^ digits.length, p.2)
    else (0, '.' :: c :: rest)
  | cs => (0, cs)

/-- Optional exponent part `[eE][+-]?digits`; if no digit follows, nothing
is consumed (the number token simply ends). -/
def parseExpPart (cs : List Char) : (ℤ × List Char) :=
  match cs with
  | e :: rest =>
    if e == 'e' || e == 'E' then
      let sr : (Bool × List Char) :=
        match rest with
        | '+' :: r => (false, r)
        | '-' :: r => (true, r)
        | r => (false, r)
      match sr.2 with
      | c :: r2 =>
        if c.isDigit then
          let p := takeDigits r2
          let n := digitsToNat ((c.toNat - 48) :: p.1)
          ((if sr.1 then -(n : ℤ) else (n : ℤ)), p.2)
        else (0, cs)
      | [] => (0, cs)
    else (0, cs)
  | [] => (0, cs)

/-- Scale by a power of ten (exponent may be negative). -/
def applyExp (q : ℚ) (e : ℤ) : ℚ :=
  if e < 0 then q / (10 : ℚ) ^ e.natAbs else q * (10 : ℚ) ^ e.toNat

/-- A JSON number token: `-?(0|[1-9][0-9]*)(.[0-9]+)?([eE][+-]?[0-9]+)?`.
Returns the exact rational value and the remaining input. -/
def parseNumber (cs : List Char) : Option (ℚ × List Char) :=
  let sgn : (Bool × List Char) :=
    match cs with
    | '-' :: rest => (true, rest)
    | _ => (false, cs)
  match sgn.2 with
  | c :: rest =>
    if c == '0' ∨ c.isDigit then
      let ip : (ℕ × List Char) :=
        if c == '0' then (0, rest)
        else
          let p := takeDigits rest
          (digitsToNat ((c.toNat - 48) :: p.1), p.2)
      let fp := parseFracPart ip.2
      let ep := parseExpPart fp.2
      let base : ℚ := (ip.1 : ℚ) + fp.1
      let v := applyExp base ep.1
      some ((if sgn.1 then -v else v), ep.2)
    else none
  | [] => none

/-- `dict`-style insertion: an existing key keeps its position and gets the
new value (later duplicate keys in a JSON object overwrite earlier ones,
preserving first-insertion order, exactly as `json.loads` does). -/
def upsert (kvs : List (String × Json)) (k : String) (v : Json) : List (String × Json) :=
  if (kvs.find? (fun kv => kv.1 == k)).isSome then
    kvs.map (fun kv => if kv.1 == k then (k, v) else kv)
  else kvs ++ [(k, v)]

mutual

/-- One JSON value, fuel-bounded (the fuel strictly exceeds the input
length at the top-level call, and every recursive call follows at least
one consumed character, so exhaustion is unreachable). Error messages
abbreviate CPython's. -/
def parseJsonValue : ℕ → List Char → Except String (Json × List Char)
  | 0, _ => .error "Expecting value"
  | fuel + 1, cs =>
    match skipWs cs with
    | [] => .error "Expecting value"
    | c :: rest =>
      if c == lbrace then parseJsonMembersStart fuel rest
      else if c == '[' then parseJsonItemsStart fuel rest
      else if c == Char.ofNat 34 then
        match parseJsonStringBody rest with
        | some p => .ok (.str (String.mk p.1), p.2)
        | none => .error "Invalid string"
      else if c == 't' then
        match rest with
        | 'r' :: 'u' :: 'e' :: rest2 => .ok (.bool true, rest2)
        | _ => .error "Expecting value"
      else if c == 'f' then
        match rest with
        | 'a' :: 'l' :: 's' :: 'e' :: rest2 => .ok (.bool false, rest2)
        | _ => .error "Expecting value"
      else if c == 'n' then
        match rest with
        | 'u' :: 'l' :: 'l' :: rest2 => .ok (.null, rest2)
        | _ => .error "Expecting value"
      else if c == '-' || c.isDigit then
        match parseNumber (c :: rest) with
        | some p => .ok (.num p.1, p.2)
        | none => .error "Expecting value"
      else .error "Expecting value"

/-- After an opening brace: an empty object or the first member. -/
def parseJsonMembersStart : ℕ → List Char → Except String (Json × List Char)
  | 0, _ => .error "Expecting value"
  | fuel + 1, cs =>
    match skipWs cs with
    | [] => .error "Expecting property name"
    | c :: rest =>
      if c == rbrace then .ok (.obj [], rest)
      else parseJsonMembers fuel [] (c :: rest)

/-- Members of an object after a brace or comma (next token must be a
string key). -/
def parseJsonMembers : ℕ → List (String × Json) → List Char → Except String (Json × List Char)
  | 0, _, _ => .error "Expecting value"
  | fuel + 1, acc, cs =>
    match skipWs cs with
    | [] => .error "Expecting property name"
    | c :: rest =>
      if c == Char.ofNat 34 then
        match parseJsonStringBody rest with
        | some kp =>
          (match skipWs kp.2 with
          | ':' :: rest2 =>
            (match parseJsonValue fuel rest2 with
            | .ok vp =>
              let acc2 := upsert acc (String.mk kp.1) vp.1
              (match skipWs vp.2 with
              | ',' :: rest3 => parseJsonMembers fuel acc2 rest3
              | c2 :: rest3 =>
                if c2 == rbrace then .ok (.obj acc2, rest3)
                else .error "Expecting comma delimiter"
              | [] => .error "Expecting comma delimiter")
            | .error e => .error e)
          | _ => .error "Expecting colon delimiter")
        | none => .error "Invalid string"
      else .error "Expecting property name"

/-- After an opening bracket: an empty array or the first item. -/
def parseJsonItemsStart : ℕ → List Char → Except String (Json × List Char)
  | 0, _ => .error "Expecting value"
  | fuel + 1, cs =>
    match skipWs cs with
    | [] => .error "Expecting value"
    | c :: rest =>
      if c == ']' then .ok (.arr [], rest)
      else parseJsonItems fuel [] (c :: rest)

/-- Items of an array after a bracket or comma. -/
def parseJsonItems : ℕ → List Json → List Char → Except String (Json × List Char)
  | 0, _, _ => .error "Expecting value"
  | fuel + 1, acc, cs =>
    match parseJsonValue fuel cs with
    | .ok vp =>
      (match skipWs vp.2 with
      | ',' :: rest2 => parseJsonItems fuel (acc ++ [vp.1]) rest2
      | c2 :: rest2 =>
        if c2 == ']' then .ok (.arr (acc ++ [vp.1]), rest2)
        else .error "Expecting comma delimiter"
      | [] => .error "Expecting comma delimiter")
    | .error e => .error e

end

/-- `json.loads`: parse one JSON document, allowing surrounding
whitespace and rejecting trailing input. (The `NaN`/`Infinity` extensions
CPython accepts by default are omitted; no claim concerns them.) -/
def json_loads (s : String) : Except String Json :=
  match parseJsonValue (s.length + 1) s.data with
  | .error e => .error e
  | .ok p =>
    match skipWs p.2 with
    | [] => .ok p.1
    | _ => .error "Extra data"

/-- A Python `datetime` as produced by `datetime.fromisoformat`: civil
fields plus an optional fixed UTC offset in seconds (`none` = naive). -/
structure PyDatetime where
  year : ℕ
  month : ℕ
  day : ℕ
  hour : ℕ
  minute : ℕ
  second : ℕ
  microsecond : ℕ
  tzOffsetSeconds : Option ℤ
deriving DecidableEq, Repr

/-- Gregorian leap year. -/
def isLeapYear (y : ℕ) : Bool :=
  y % 4 == 0 && (y % 100 != 0 || y % 400 == 0)

/-- Days in a month. -/
def daysInMonth (y m : ℕ) : ℕ :=
  if m == 2 then (if isLeapYear y then 29 else 28)
  else if m == 4 || m == 6 || m == 9 || m == 11 then 30
  else 31

/-- Days from 1970-01-01 to the given civil date (Gregorian, proleptic);
valid for years `1 ≤ y ≤ 9999`, the `datetime` range. -/
def daysFromCivil (y m d : ℕ) : ℤ :=
  let y2 : ℕ := if m ≤ 2 then y - 1 else y
  let era : ℕ := y2 / 400
  let yoe : ℕ := y2 % 400
  let mp : ℕ := (m + 9) % 12
  let doy : ℕ := (153 * mp + 2) / 5 + d - 1
  let doe : ℕ := yoe * 365 + yoe / 4 - yoe / 100 + doy
  ((era * 146097 + doe : ℕ) : ℤ) - 719468

/-- Seconds since the Unix epoch of the civil fields read naively (no
offset applied). -/
def naiveEpochSeconds (dt : PyDatetime) : ℚ :=
  86400 * (daysFromCivil dt.year dt.month dt.day : ℚ)
    + 3600 * (dt.hour : ℚ) + 60 * (dt.minute : ℚ) + (dt.second : ℚ)
    + (dt.microsecond : ℚ) / 1000000

/-- The UTC instant of a parsed datetime, as `parse_message_line`
normalizes it: a naive value gets `replace(tzinfo=timezone.utc)` (fields
read as UTC), an aware value gets `astimezone(timezone.utc)` (the instant
is preserved, i.e. naive fields minus the offset). -/
def PyDatetime.toUtcEpoch (dt : PyDatetime) : ℚ :=
  naiveEpochSeconds dt - ((dt.tzOffsetSeconds.getD 0 : ℤ) : ℚ)

/-- `datetime.min` in UTC: the epoch timestamp of 0001-01-01T00:00:00Z. -/
def EPOCH_MIN : ℚ := -62135596800

/-- `datetime.max` in UTC: the epoch timestamp of
9999-12-31T23:59:59.999999Z. -/
def EPOCH_MAX : ℚ := 253402300799 + 999999 / 1000000

/-- `datetime.fromtimestamp(x, tz=timezone.utc)`: the identity on the
instant inside the representable `datetime` range, an
`OverflowError`/`ValueError` outside it (modelled as `none`; the caller
catches every exception here). Sub-microsecond rounding is below this
abstraction: `ℚ` keeps the exact value. -/
def fromtimestampUtc (x : ℚ) : Option ℚ :=
  if EPOCH_MIN ≤ x ∧ x ≤ EPOCH_MAX then some x else none

/-- Two decimal digits. -/
def take2 : List Char → Option (ℕ × List Char)
  | c1 :: c2 :: rest =>
    if c1.isDigit && c2.isDigit then
      some ((c1.toNat - 48) * 10 + (c2.toNat - 48), rest)
    else none
  | _ => none

/-- Four decimal digits. -/
def take4 : List Char → Option (ℕ × List Char)
  | c1 :: c2 :: c3 :: c4 :: rest =>
    if c1.isDigit && c2.isDigit && c3.isDigit && c4.isDigit then
      some ((((c1.toNat - 48) * 10 + (c2.toNat - 48)) * 10 + (c3.toNat - 48)) * 10
        + (c4.toNat - 48), rest)
    else none
  | _ => none

/-- Expect one exact character. -/
def expectChar (c : Char) : List Char → Option (List Char)
  | c2 :: rest => if c2 == c then some rest else none
  | [] => none

/-- `YYYY-MM-DD`, validated against the `datetime` constructor's ranges. -/
def parseIsoDate (cs : List Char) : Option (ℕ × ℕ × ℕ × List Char) := do
  let (y, r1) ← take4 cs
  let r2 ← expectChar '-' r1
  let (mo, r3) ← take2 r2
  let r4 ← expectChar '-' r3
  let (d, r5) ← take2 r4
  if 1 ≤ y ∧ 1 ≤ mo ∧ mo ≤ 12 ∧ 1 ≤ d ∧ d ≤ daysInMonth y mo then
    pure (y, mo, d, r5)
  else none

/-- Fraction digits after the time: `.d{1,6}`, value in microseconds.
(CPython 3.11+ accepts one to six digits; before 3.11 exactly three or
six — the laxer grammar is used, which only widens the domain of parsed
strings and changes no relational property.) -/
def parseIsoFraction : List Char → Option (ℕ × List Char)
  | '.' :: rest =>
    let p := takeDigits rest
    if p.1.length == 0 ∨ p.1.length > 6 then none
    else some (digitsToNat p.1 * 10 ^ (6 - p.1.length), p.2)
  | _ => none

/-- The time-of-day part `HH[:MM[:SS[.ffffff]]]`, which must use the whole
input; ranges as the `datetime` constructor checks them. -/
def parseIsoTime (cs : List Char) : Option (ℕ × ℕ × ℕ × ℕ) := do
  let (h, r1) ← take2 cs
  let (mi, s, us) ←
    (match r1 with
    | [] => some (0, 0, 0)
    | ':' :: r2 => do
      let (mi, r3) ← take2 r2
      (match r3 with
      | [] => some (mi, 0, 0)
      | ':' :: r4 => do
        let (s, r5) ← take2 r4
        (match r5 with
        | [] => some (mi, s, 0)
        | r5 => do
          let (us, r6) ← parseIsoFraction r5
          if r6.isEmpty then some (mi, s, us) else none)
      | _ => none)
    | _ => none)
  if h ≤ 23 ∧ mi ≤ 59 ∧ s ≤ 59 then pure (h, mi, s, us) else none

/-- Split the time string at the first `+` or `-` (the offset separator);
a legal time never contains either, mirroring CPython's search. -/
def splitAtSign : List Char → (List Char × Option (Char × List Char))
  | [] => ([], none)
  | c :: rest =>
    if c == '+' || c == '-' then ([], some (c, rest))
    else
      let p := splitAtSign rest
      (c :: p.1, p.2)

/-- The offset `HH:MM[:SS]` in seconds; accepted when the total is below
24 hours, as the `timezone` constructor requires. (A fractional-second
offset is not modelled; no claim concerns it.) -/
def parseIsoOffset (cs : List Char) : Option ℕ := do
  let (h, r1) ← take2 cs
  let r2 ← expectChar ':' r1
  let (m, r3) ← take2 r2
  let s ←
    (match r3 with
    | [] => some 0
    | ':' :: r4 => do
      let (s, r5) ← take2 r4
      if r5.isEmpty then some s else none
    | _ => none)
  let total := h * 3600 + m * 60 + s
  if total < 86400 then pure total else none

/-- `datetime.fromisoformat` (the pre-3.11 grammar the code targets: it
rewrites a trailing `Z` itself because this function does not accept
one): `YYYY-MM-DD`, optionally followed by any single separator
character, a time `HH[:MM[:SS[.ffffff]]]` and an offset `±HH:MM[:SS]`.
Returns `none` where CPython raises `ValueError`. -/
def fromisoformat (s : String) : Option PyDatetime := do
  let (y, mo, d, rest) ← parseIsoDate s.data
  match rest with
  | [] => pure ⟨y, mo, d, 0, 0, 0, 0, none⟩
  | _sep :: timecs =>
    let sp := splitAtSign timecs
    let (h, mi, sec, us) ← parseIsoTime sp.1
    match sp.2 with
    | none => pure ⟨y, mo, d, h, mi, sec, us, none⟩
    | some (sgnChar, tzcs) => do
      let off ← parseIsoOffset tzcs
      let offz : ℤ := if sgnChar == '-' then -(off : ℤ) else (off : ℤ)
      pure ⟨y, mo, d, h, mi, sec, us, some offz⟩

/-- Python `s.endswith("Z")`: the last character is `Z`. -/
def pyEndsWithZ (s : String) : Bool := s.data.getLast? == some 'Z'

/-- Python `s[:-1]`: drop the last character. -/
def pyDropLast (s : String) : String := String.mk s.data.dropLast

/-- `_parse_iso8601_to_datetime` (src/server.py lines 74-96), its result
identified with the UTC instant it denotes: `None` in, `None` out; any
other value goes through `str`, a trailing `Z` is rewritten to `+00:00`
(CPython's `fromisoformat` here does not accept `Z`), then
`fromisoformat`; a naive result is stamped UTC, an aware one converted to
UTC; every parse failure is caught and becomes `None`. (The
`isinstance(value, datetime)` branch is omitted: values decoded from JSON
are never `datetime` objects, so it is unreachable from
`parse_message_line`.) -/
def _parse_iso8601_to_datetime (value : Json) : Option ℚ :=
  if value = .null then none
  else
    let s := value.pyStr
    let s2 := if pyEndsWithZ s then pyDropLast s ++ "+00:00" else s
    match fromisoformat s2 with
    | none => none
    | some dt => some dt.toUtcEpoch

/-- `obj.get("device_id") or obj.get("dev_id") or "unknown"`
(src/server.py line 119): Python `or` returns its left operand when
truthy, so a falsy `device_id` (including `""`, `0`, `false`, `null`)
falls through. On a non-`dict` the first `.get` raises. -/
def resolveDeviceId (obj : Json) : Except PyErr Json := do
  let a ← obj.pyGet "device_id"
  if a.truthy then pure a
  else
    let b ← obj.pyGet "dev_id"
    if b.truthy then pure b
    else pure (.str "unknown")

/-- `obj.get("timestamp") or obj.get("ts")` (src/server.py line 121). -/
def tsCandidate (obj : Json) : Except PyErr Json := do
  let a ← obj.pyGet "timestamp"
  if a.truthy then pure a
  else obj.pyGet "ts"

/-- The timestamp derived from the resolved candidate value
(src/server.py lines 122-131): `None` yields no timestamp; a numeric
value (`int`, `float` — or `bool`, an `int` subclass) goes through
`fromtimestamp` with failures caught; anything else through the ISO-8601
helper. `none` means the current-time default applies. -/
def tsFromValue (v : Json) : Option ℚ :=
  if v = .null then none
  else if v.isNumericPy then fromtimestampUtc v.pyFloat
  else _parse_iso8601_to_datetime v

/-- Timestamp resolution before the current-time default. -/
def resolveTsOpt (obj : Json) : Except PyErr (Option ℚ) := do
  let v ← tsCandidate obj
  pure (tsFromValue v)

/-- Timestamp resolution including the `datetime.now(timezone.utc)`
default (src/server.py lines 132-133); `now` is the explicit clock. -/
def resolveTs (now : ℚ) (obj : Json) : Except PyErr ℚ := do
  let o ← resolveTsOpt obj
  pure (o.getD now)

/-- Python `str.strip` whitespace: the six ASCII whitespace characters
(space, tab, newline, carriage return, vertical tab, form feed).
Stripping of exotic Unicode spaces is below this abstraction. -/
def isPyWs (c : Char) : Bool :=
  c == ' ' || c == '\t' || c == '\n' || c == '\r' || c == Char.ofNat 11 || c == Char.ofNat 12

/-- Python `str.strip()`: drop leading and trailing whitespace. -/
def pyStrip (s : String) : String :=
  String.mk (((s.data.dropWhile isPyWs).reverse.dropWhile isPyWs).reverse)

/-- `parse_message_line` (src/server.py lines 99-137). The input is the
line as text: the bytes branch decodes UTF-8 with `errors="ignore"`,
which is total, so byte input is subsumed by the decoded string.
Returns the `(device_id, ts, payload_json)` triple or the raised
exception. -/
def parse_message_line (now : ℚ) (line : String) : Except PyErr (Json × ℚ × String) := do
  let raw := pyStrip line
  if raw = "" then throw (.valueError "empty line")
  else
    match json_loads raw with
    | .error e => throw (.valueError ("invalid json: " ++ e))
    | .ok obj => do
      let device_id ← resolveDeviceId obj
      let ts ← resolveTs now obj
      pure (device_id, ts, json_dumps obj)

/-- The configured routing-key prefix (`config.ini` fallback default,
src/server.py line 65). -/
def RABBITMQ_ROUTING_KEY : String := "iot.data"

/-- The external conditions at boot (src/server.py lines 147-163,
213-216): the config flag, whether `aio_pika` imported, and whether the
two backends accept a connection. -/
structure BootEnv where
  rabbitmqEnabled : Bool
  aioPikaInstalled : Bool
  busReachable : Bool
  dbReachable : Bool

/-- The exception that escapes the startup sequence, by failing
subsystem. -/
inductive BootErr where
  | dbError
  | busError
deriving DecidableEq, Repr

/-- The server state after a successful boot: whether the pool exists and
whether `rabbit_exchange` was set (publishing enabled). -/
structure ServerBoot where
  db_pool : Bool
  rabbit_exchange : Bool
deriving DecidableEq, Repr

/-- `TcpToDbServer.init_db` (src/server.py lines 147-149):
`asyncpg.create_pool` raises if the database is unreachable; nothing
catches it. -/
def init_db (env : BootEnv) : Except BootErr Unit :=
  if env.dbReachable then .ok () else .error .dbError

/-- `TcpToDbServer.init_rabbit` (src/server.py lines 151-163): returns
early (publishing disabled, logged) when the feature is off in config or
`aio_pika` failed to import; otherwise `aio_pika.connect_robust` raises
if the broker refuses the initial connection — and nothing catches it. -/
def init_rabbit (env : BootEnv) : Except BootErr Bool :=
  if !env.rabbitmqEnabled then .ok false
  else if !env.aioPikaInstalled then .ok false
  else if env.busReachable then .ok true
  else .error .busError

/-- The startup prefix of `TcpToDbServer.run` (src/server.py lines
213-216): `await self.init_db()` then `await self.init_rabbit()`, with no
exception handling around either; an exception from either aborts the
process (`asyncio.run` re-raises and `__main__` catches only
`KeyboardInterrupt`). -/
def run_startup (env : BootEnv) : Except BootErr ServerBoot := do
  init_db env
  let ex ← init_rabbit env
  pure ⟨true, ex⟩

/-- One observable step of a connection handler, in program order. -/
inductive Event where
  | acquire
  | readLine (line : String)
  | parseSkipped (msg : String)
  | insertAttempt (device : Json) (ts : ℚ) (payload : String) (receivedAt : ℚ)
  | insertFailLogged
  | publishAttempt (routingKey : String) (body : String)
  | publishFailLogged
  | release
  | handlerErrorLogged
  | connectionClosed
deriving DecidableEq

/-- Recognize an insert attempt (for counting). -/
def Event.isInsertAttempt : Event → Bool
  | .insertAttempt _ _ _ _ => true
  | _ => false

/-- Recognize a read (for locating reads relative to the pool events). -/
def Event.isReadLine : Event → Bool
  | .readLine _ => true
  | _ => false

/-- Events that can occur inside the read loop (between the pool acquire
and release). -/
def Event.isLoopEvent : Event → Bool
  | .acquire => false
  | .release => false
  | .handlerErrorLogged => false
  | .connectionClosed => false
  | _ => true

/-- The external world of one TCP session: the frames `readline` will
deliver in order (the list ending models EOF; an empty string models the
empty read at EOF), per-iteration oracles for whether the insert and the
publish succeed, whether `rabbit_exchange` was set at boot, and the two
wall-clock readings of each iteration (parse default and `received_at`). -/
structure SessionEnv where
  lines : List String
  dbOk : ℕ → Bool
  pubOk : ℕ → Bool
  rabbitEnabled : Bool
  clockP : ℕ → ℚ
  clockR : ℕ → ℚ

/-- The insert of one message (src/server.py lines 186-190): the
`conn.execute` attempt, and the `logger.exception` when it raises — the
exception is swallowed. -/
def insertEvents (env : SessionEnv) (i : ℕ) (d : Json) (ts : ℚ) (p : String) : List Event :=
  .insertAttempt d ts p (env.clockR i) :: (if env.dbOk i then [] else [.insertFailLogged])

/-- The optional publish of one message (src/server.py lines 192-199):
skipped entirely when `rabbit_exchange is None`; otherwise a publish with
routing key `f"RABBITMQ_ROUTING_KEY.device_id"` whose failure is
swallowed after logging. -/
def publishEvents (env : SessionEnv) (i : ℕ) (d : Json) (p : String) : List Event :=
  if env.rabbitEnabled then
    .publishAttempt (RABBITMQ_ROUTING_KEY ++ "." ++ d.pyStr) p ::
      (if env.pubOk i then [] else [.publishFailLogged])
  else []

/-- The read loop of `handle_client` (src/server.py lines 176-199), begun
at iteration `i`: read a line; an empty read means EOF (`break`); a
`ValueError` from the parser is logged and the line skipped (`continue`);
any other exception from the parser — the `AttributeError` of non-object
JSON — is *not* caught here and aborts the loop (second component
`true`); on success, insert then optionally publish, each with its
failure swallowed, then loop. -/
def runLoop (env : SessionEnv) : ℕ → List String → List Event × Bool
  | _, [] => ([], false)
  | i, l :: rest =>
    if l = "" then ([.readLine l], false)
    else
      match parse_message_line (env.clockP i) l with
      | .error (.valueError m) =>
        (.readLine l :: .parseSkipped m :: (runLoop env (i + 1) rest).1,
          (runLoop env (i + 1) rest).2)
      | .error (.attributeError _) => ([.readLine l], true)
      | .ok (d, ts, p) =>
        (.readLine l :: (insertEvents env i d ts p ++ publishEvents env i d p
            ++ (runLoop env (i + 1) rest).1),
          (runLoop env (i + 1) rest).2)

/-- `TcpToDbServer.handle_client` (src/server.py lines 171-211) as its
event trace: `async with self.db_pool.acquire()` acquires ONE pooled
connection, the whole read loop runs inside the `with` block, and the
connection is released when the block exits — normally at EOF, or by
exception propagation, in which case the outer handler logs it; the
`finally` block then closes the client socket either way. -/
def handle_client (env : SessionEnv) : List Event :=
  let r := runLoop env 0 env.lines
  .acquire :: r.1 ++ Event.release ::
    ((if r.2 then [Event.handlerErrorLogged] else []) ++ [Event.connectionClosed])

/-- Remove a key from an object's members (for the as-if-absent
comparison). -/
def eraseKey (k : String) (kvs : List (String × Json)) : List (String × Json) :=
  kvs.filter (fun kv => kv.1 != k)

/-! ### Helper lemmas shared by the claim theorems -/

theorem pyEndsWithZ_append_Z (s : String) : pyEndsWithZ (s ++ "Z") = true := by
  simp [pyEndsWithZ, String.data_append]

theorem pyDropLast_append_Z (s : String) : pyDropLast (s ++ "Z") = s := by
  simp [pyDropLast, String.data_append]

theorem pyEndsWithZ_append_utc (s : String) : pyEndsWithZ (s ++ "+00:00") = false := by
  simp [pyEndsWithZ, String.data_append]

theorem parse_iso_str (t : String) : _parse_iso8601_to_datetime (.str t) =
    (match fromisoformat (if pyEndsWithZ t then pyDropLast t ++ "+00:00" else t) with
     | none => none
     | some dt => some dt.toUtcEpoch) := by
  simp only [_parse_iso8601_to_datetime]
  rw [if_neg (by simp)]
  rfl

theorem parse_message_line_empty (now : ℚ) (line : String) (h : pyStrip line = "") :
    parse_message_line now line = .error (.valueError "empty line") := by
  unfold parse_message_line
  rw [if_pos h]
  rfl

theorem parse_message_line_badjson (now : ℚ) (line : String) (e : String)
    (hne : pyStrip line ≠ "") (he : json_loads (pyStrip line) = .error e) :
    parse_message_line now line = .error (.valueError ("invalid json: " ++ e)) := by
  unfold parse_message_line
  rw [if_neg hne, he]
  rfl

theorem parse_message_line_ok (now : ℚ) (line : String) (obj : Json) (d : Json) (q : ℚ)
    (hne : pyStrip line ≠ "") (hloads : json_loads (pyStrip line) = .ok obj)
    (hd : resolveDeviceId obj = .ok d) (ht : resolveTs now obj = .ok q) :
    parse_message_line now line = .ok (d, q, json_dumps obj) := by
  unfold parse_message_line
  rw [if_neg hne, hloads]
  show Except.bind (resolveDeviceId obj) _ = _
  rw [hd]
  show Except.bind (resolveTs now obj) _ = _
  rw [ht]
  rfl

theorem parse_message_line_err (now : ℚ) (line : String) (obj : Json) (m : String)
    (hne : pyStrip line ≠ "") (hloads : json_loads (pyStrip line) = .ok obj)
    (hd : resolveDeviceId obj = .error (.attributeError m)) :
    parse_message_line now line = .error (.attributeError m) := by
  unfold parse_message_line
  rw [if_neg hne, hloads]
  show Except.bind (resolveDeviceId obj) _ = _
  rw [hd]
  rfl

theorem resolveDeviceId_obj_eq (kvs : List (String × Json)) :
    resolveDeviceId (.obj kvs) = .ok (
      if ((Json.lookup kvs "device_id").getD .null).truthy then
        (Json.lookup kvs "device_id").getD .null
      else if ((Json.lookup kvs "dev_id").getD .null).truthy then
        (Json.lookup kvs "dev_id").getD .null
      else .str "unknown") := by
  cases h1 : ((Json.lookup kvs "device_id").getD .null).truthy
  · cases h2 : ((Json.lookup kvs "dev_id").getD .null).truthy
    · simp [resolveDeviceId, Bind.bind, Except.bind, Pure.pure, Except.pure, Json.pyGet, h1, h2]
    · simp [resolveDeviceId, Bind.bind, Except.bind, Pure.pure, Except.pure, Json.pyGet, h1, h2]
  · simp [resolveDeviceId, Bind.bind, Except.bind, Pure.pure, Except.pure, Json.pyGet, h1]

theorem tsCandidate_obj_eq (kvs : List (String × Json)) :
    tsCandidate (.obj kvs) = .ok (
      if ((Json.lookup kvs "timestamp").getD .null).truthy then
        (Json.lookup kvs "timestamp").getD .null
      else (Json.lookup kvs "ts").getD .null) := by
  cases h1 : ((Json.lookup kvs "timestamp").getD .null).truthy
  · simp [tsCandidate, Bind.bind, Except.bind, Pure.pure, Except.pure, Json.pyGet, h1]
  · simp [tsCandidate, Bind.bind, Except.bind, Pure.pure, Except.pure, Json.pyGet, h1]

theorem resolveTs_of_candidate (now : ℚ) (obj c : Json) (h : tsCandidate obj = .ok c) :
    resolveTs now obj = .ok ((tsFromValue c).getD now) := by
  simp [resolveTs, resolveTsOpt, Bind.bind, Except.bind, Pure.pure, Except.pure, h]

theorem resolveDeviceId_obj_isOk (kvs : List (String × Json)) :
    ∃ d, resolveDeviceId (.obj kvs) = .ok d := by
  rw [resolveDeviceId_obj_eq]
  exact ⟨_, rfl⟩

theorem resolveTs_obj_isOk (now : ℚ) (kvs : List (String × Json)) :
    ∃ q, resolveTs now (.obj kvs) = .ok q := by
  rw [resolveTs_of_candidate now _ _ (tsCandidate_obj_eq kvs)]
  exact ⟨_, rfl⟩

theorem resolveDeviceId_nonobj (v : Json) (hno : ∀ kvs, v ≠ .obj kvs) :
    resolveDeviceId v =
      .error (.attributeError ("'" ++ v.pyTypeName ++ "' object has no attribute 'get'")) := by
  cases v with
  | obj kvs => exact absurd rfl (hno kvs)
  | null => rfl
  | bool b => rfl
  | num q => rfl
  | str s => rfl
  | arr xs => rfl

/-! ### Claim theorems -/

/-- C9: For every JSON string timestamp value, an ISO-8601 string with a
trailing `Z` resolves to the same UTC instant as the equivalent string
suffixed `+00:00` (the code rewrites the `Z` to exactly that suffix
before parsing); a parsed string carrying no offset is interpreted as
UTC (the resolved instant is its civil fields read as UTC); and a parsed
string carrying an offset is converted to UTC (the resolved instant is
its civil fields minus the offset — the same instant the aware datetime
denotes). -/
theorem c9_iso8601_z_equiv_and_utc :
    (∀ s : String, _parse_iso8601_to_datetime (.str (s ++ "Z"))
        = _parse_iso8601_to_datetime (.str (s ++ "+00:00")))
  ∧ (∀ (s : String) (dt : PyDatetime), pyEndsWithZ s = false →
        fromisoformat s = some dt → dt.tzOffsetSeconds = none →
        _parse_iso8601_to_datetime (.str s) = some (naiveEpochSeconds dt))
  ∧ (∀ (s : String) (dt : PyDatetime) (off : ℤ), pyEndsWithZ s = false →
        fromisoformat s = some dt → dt.tzOffsetSeconds = some off →
        _parse_iso8601_to_datetime (.str s)
          = some (naiveEpochSeconds dt - (off : ℚ))) := by
  refine ⟨fun s => ?_, fun s dt hz hf ht => ?_, fun s dt off hz hf ht => ?_⟩
  · rw [parse_iso_str, parse_iso_str, pyEndsWithZ_append_Z, pyEndsWithZ_append_utc]
    simp only [if_true, Bool.false_eq_true, if_false, pyDropLast_append_Z]
  · rw [parse_iso_str, hz]
    simp [hf, PyDatetime.toUtcEpoch, ht]
  · rw [parse_iso_str, hz]
    simp [hf, PyDatetime.toUtcEpoch, ht]

/-- Witness for C9 at concrete strings: noon of 2025-01-01 with `Z` and
`+00:00` suffixes, without an offset, and with a `+05:00` offset. -/
theorem c9_iso8601_z_equiv_and_utc_witness :
    _parse_iso8601_to_datetime (.str ("2025-01-01T12:00:00" ++ "Z"))
      = _parse_iso8601_to_datetime (.str ("2025-01-01T12:00:00" ++ "+00:00"))
  ∧ _parse_iso8601_to_datetime (.str ("2025-01-01T12:00:00"))
      = some (naiveEpochSeconds ⟨2025, 1, 1, 12, 0, 0, 0, none⟩)
  ∧ _parse_iso8601_to_datetime (.str ("2025-01-01T12:00:00+05:00"))
      = some (naiveEpochSeconds ⟨2025, 1, 1, 12, 0, 0, 0, some 18000⟩ - ((18000 : ℤ) : ℚ)) :=
  ⟨c9_iso8601_z_equiv_and_utc.1 ("2025-01-01T12:00:00"),
   c9_iso8601_z_equiv_and_utc.2.1 ("2025-01-01T12:00:00") ⟨2025, 1, 1, 12, 0, 0, 0, none⟩
     (by with_unfolding_all rfl) (by with_unfolding_all rfl) rfl,
   c9_iso8601_z_equiv_and_utc.2.2 ("2025-01-01T12:00:00+05:00")
     ⟨2025, 1, 1, 12, 0, 0, 0, some 18000⟩ 18000
     (by with_unfolding_all rfl) (by with_unfolding_all rfl) rfl⟩

theorem mem_insertEvents_loop (env : SessionEnv) (i : ℕ) (d : Json) (ts : ℚ) (p : String)
    (e : Event) (h : e ∈ insertEvents env i d ts p) : e.isLoopEvent = true := by
  simp [insertEvents] at h
  rcases h with h | h
  · subst h; rfl
  · by_cases hdb : env.dbOk i
    · simp [hdb] at h
    · simp [hdb] at h; subst h; rfl

theorem mem_publishEvents_loop (env : SessionEnv) (i : ℕ) (d : Json) (p : String)
    (e : Event) (h : e ∈ publishEvents env i d p) : e.isLoopEvent = true := by
  by_cases hrab : env.rabbitEnabled
  · simp [publishEvents, hrab] at h
    rcases h with h | h
    · subst h; rfl
    · by_cases hpub : env.pubOk i
      · simp [hpub] at h
      · simp [hpub] at h; subst h; rfl
  · simp [publishEvents, hrab] at h

theorem runLoop_events_loop (env : SessionEnv) :
    ∀ (ls : List String) (i : ℕ) (e : Event), e ∈ (runLoop env i ls).1 → e.isLoopEvent = true := by
  intro ls
  induction ls with
  | nil => intro i e he; simp [runLoop] at he
  | cons l rest ih =>
    intro i e he
    by_cases hl : l = ""
    · simp [runLoop, hl] at he; subst he; rfl
    · cases hp : parse_message_line (env.clockP i) l with
      | error err =>
        cases err with
        | valueError m =>
          simp [runLoop, hl, hp] at he
          rcases he with he | he | he
          · subst he; rfl
          · subst he; rfl
          · exact ih (i + 1) e he
        | attributeError m =>
          simp [runLoop, hl, hp] at he
          subst he; rfl
      | ok t =>
        obtain ⟨d, ts, p⟩ := t
        simp only [runLoop, if_neg hl, hp] at he
        rcases List.mem_cons.mp he with he | he
        · subst he; rfl
        · rcases List.mem_append.mp he with he | he
          · rcases List.mem_append.mp he with he | he
            · exact mem_insertEvents_loop env i d ts p e he
            · exact mem_publishEvents_loop env i d p e he
          · exact ih (i + 1) e he

/-- C3 (amended): the claim said a pooled database connection is acquired
per insert and released immediately after it; in the code the `async
with db_pool.acquire()` block wraps the whole read loop, so exactly one
acquire opens the session trace, one release closes it, and every
blocking read of the session happens while the connection is held. -/
theorem c3_connection_held_for_session (env : SessionEnv) :
    ∃ body tail,
      handle_client env = Event.acquire :: body ++ Event.release :: tail
      ∧ Event.acquire ∉ body ∧ Event.release ∉ body
      ∧ Event.acquire ∉ tail ∧ Event.release ∉ tail
      ∧ (∀ l, Event.readLine l ∈ handle_client env → Event.readLine l ∈ body) := by
  refine ⟨(runLoop env 0 env.lines).1,
    (if (runLoop env 0 env.lines).2 then [Event.handlerErrorLogged] else [])
      ++ [Event.connectionClosed], rfl, ?_, ?_, ?_, ?_, ?_⟩
  · intro h
    have := runLoop_events_loop env env.lines 0 _ h
    simp [Event.isLoopEvent] at this
  · intro h
    have := runLoop_events_loop env env.lines 0 _ h
    simp [Event.isLoopEvent] at this
  · intro h
    by_cases hab : (runLoop env 0 env.lines).2 <;> simp [hab] at h
  · intro h
    by_cases hab : (runLoop env 0 env.lines).2 <;> simp [hab] at h
  · intro l hl
    have hl2 : Event.readLine l ∈
        Event.acquire :: (runLoop env 0 env.lines).1 ++ Event.release ::
          ((if (runLoop env 0 env.lines).2 then [Event.handlerErrorLogged] else [])
            ++ [Event.connectionClosed]) := hl
    rcases List.mem_cons.mp hl2 with h | h
    · cases h
    · rcases List.mem_append.mp h with h | h
      · exact h
      · rcases List.mem_cons.mp h with h | h
        · cases h
        · by_cases hab : (runLoop env 0 env.lines).2 <;> simp [hab] at h

theorem parse_empty_is_error (now : ℚ) :
    parse_message_line now "" = .error (.valueError "empty line") := rfl

theorem runLoop_cons_ok (env : SessionEnv) (i : ℕ) (l : String) (rest : List String)
    (d : Json) (ts : ℚ) (p : String)
    (hp : parse_message_line (env.clockP i) l = .ok (d, ts, p)) :
    runLoop env i (l :: rest) =
      (.readLine l :: (insertEvents env i d ts p ++ publishEvents env i d p
          ++ (runLoop env (i + 1) rest).1),
        (runLoop env (i + 1) rest).2) := by
  have hl : l ≠ "" := by
    intro h
    rw [h, parse_empty_is_error] at hp
    cases hp
  simp only [runLoop, if_neg hl, hp]

/-- C7: when the database insert for a parsed message raises, the failure
is logged (`insertFailLogged`), the record is dropped, and the read loop
continues: the optional publish still runs, the loop proceeds to the
remaining lines with the abort flag untouched, and the next line that
parses is still attempted for write. -/
theorem c7_db_failure_keeps_connection (env : SessionEnv) (i : ℕ) (l : String)
    (rest : List String) (d : Json) (ts : ℚ) (p : String)
    (hp : parse_message_line (env.clockP i) l = .ok (d, ts, p))
    (hdb : env.dbOk i = false) :
    (runLoop env i (l :: rest)).1 =
        .readLine l :: .insertAttempt d ts p (env.clockR i) :: .insertFailLogged ::
          (publishEvents env i d p ++ (runLoop env (i + 1) rest).1)
    ∧ (runLoop env i (l :: rest)).2 = (runLoop env (i + 1) rest).2
    ∧ (∀ l2 r2 d2 ts2 p2, rest = l2 :: r2 →
        parse_message_line (env.clockP (i + 1)) l2 = .ok (d2, ts2, p2) →
        Event.insertAttempt d2 ts2 p2 (env.clockR (i + 1)) ∈ (runLoop env i (l :: rest)).1) := by
  rw [runLoop_cons_ok env i l rest d ts p hp]
  refine ⟨by simp [insertEvents, hdb], rfl, ?_⟩
  intro l2 r2 d2 ts2 p2 hrest hp2
  subst hrest
  rw [runLoop_cons_ok env (i + 1) l2 r2 d2 ts2 p2 hp2]
  simp [insertEvents]

/-- C8: for every successfully parsed message the storage insert is
awaited before any bus publish is attempted (the insert event precedes
the publish event in the iteration's trace), the publish failure is
caught and logged (`publishFailLogged`) without touching the storage
events that already happened, and the loop continues either way. -/
theorem c8_insert_before_publish (env : SessionEnv) (i : ℕ) (l : String)
    (rest : List String) (d : Json) (ts : ℚ) (p : String)
    (hp : parse_message_line (env.clockP i) l = .ok (d, ts, p))
    (hrab : env.rabbitEnabled = true) :
    (runLoop env i (l :: rest)).1 =
        .readLine l :: .insertAttempt d ts p (env.clockR i) ::
          ((if env.dbOk i then [] else [.insertFailLogged]) ++
            (.publishAttempt (RABBITMQ_ROUTING_KEY ++ "." ++ d.pyStr) p ::
              ((if env.pubOk i then [] else [.publishFailLogged])
                ++ (runLoop env (i + 1) rest).1)))
    ∧ (runLoop env i (l :: rest)).2 = (runLoop env (i + 1) rest).2 := by
  rw [runLoop_cons_ok env i l rest d ts p hp]
  exact ⟨by simp [insertEvents, publishEvents, hrab], rfl⟩

/-- C3 counterexample: a session of two successfully inserted messages
performs two insert attempts but only one pool acquire, so the
connection is not acquired per insert. -/
theorem c3_counterexample :
    (handle_client ⟨["\x7b\x7d", "\x7b\x7d"], fun _ => true, fun _ => true, false,
        fun _ => 0, fun _ => 7⟩).countP Event.isInsertAttempt = 2
    ∧ (handle_client ⟨["\x7b\x7d", "\x7b\x7d"], fun _ => true, fun _ => true, false,
        fun _ => 0, fun _ => 7⟩).count Event.acquire = 1 := by
  constructor
  · with_unfolding_all rfl
  · with_unfolding_all rfl

/-- Witness for C7: two messages, every insert failing; the second
message's insert attempt still appears in the trace. -/
theorem c7_witness :
    Event.insertAttempt (.str "unknown") 0 ("\x7b\x7d") 7 ∈
      (runLoop ⟨["\x7b\x7d", "\x7b\x7d"], fun _ => false, fun _ => true, false,
        fun _ => 0, fun _ => 7⟩ 0 (["\x7b\x7d", "\x7b\x7d"])).1 :=
  (c7_db_failure_keeps_connection
      ⟨["\x7b\x7d", "\x7b\x7d"], fun _ => false, fun _ => true, false, fun _ => 0, fun _ => 7⟩
      0 ("\x7b\x7d") ["\x7b\x7d"] (.str "unknown") 0 ("\x7b\x7d")
      (by with_unfolding_all rfl) rfl).2.2
    ("\x7b\x7d") [] (.str "unknown") 0 ("\x7b\x7d") rfl (by with_unfolding_all rfl)

/-- Witness for C8: one message, publish failing; the trace shows insert
before publish and the logged publish failure. -/
theorem c8_witness :
    (runLoop ⟨["\x7b\x7d"], fun _ => true, fun _ => false, true,
        fun _ => 0, fun _ => 7⟩ 0 (["\x7b\x7d"])).1 =
      [.readLine ("\x7b\x7d"), .insertAttempt (.str "unknown") 0 ("\x7b\x7d") 7,
       .publishAttempt ("iot.data.unknown") ("\x7b\x7d"), .publishFailLogged] :=
  (c8_insert_before_publish
      ⟨["\x7b\x7d"], fun _ => true, fun _ => false, true, fun _ => 0, fun _ => 7⟩
      0 ("\x7b\x7d") [] (.str "unknown") 0 ("\x7b\x7d")
      (by with_unfolding_all rfl) rfl).1

/-- C1 (amended): the claim said every failure of `parse_message_line`
is a `ValueError`; in fact the function returns a triple whenever the
top-level JSON is an object, raises `ValueError` exactly for
empty-after-strip input and invalid top-level JSON, and raises
`AttributeError` — not `ValueError` — when the top-level JSON is valid
but not an object. No other exception class is reachable. -/
theorem c1_error_classification (now : ℚ) (line : String) :
    (∃ t kvs, parse_message_line now line = .ok t
        ∧ json_loads (pyStrip line) = .ok (.obj kvs))
  ∨ (∃ m, parse_message_line now line = .error (.valueError m)
        ∧ (pyStrip line = "" ∨ ∃ e, json_loads (pyStrip line) = .error e))
  ∨ (∃ m v, parse_message_line now line = .error (.attributeError m)
        ∧ json_loads (pyStrip line) = .ok v ∧ ∀ kvs, v ≠ .obj kvs) := by
  by_cases h0 : pyStrip line = ""
  · exact Or.inr (Or.inl ⟨"empty line", parse_message_line_empty now line h0, Or.inl h0⟩)
  · cases hl : json_loads (pyStrip line) with
    | error e =>
      exact Or.inr (Or.inl ⟨"invalid json: " ++ e,
        parse_message_line_badjson now line e h0 hl, Or.inr ⟨e, rfl⟩⟩)
    | ok v =>
      cases v with
      | obj kvs =>
        obtain ⟨d, hd⟩ := resolveDeviceId_obj_isOk kvs
        obtain ⟨q, hq⟩ := resolveTs_obj_isOk now kvs
        exact Or.inl ⟨(d, q, json_dumps (.obj kvs)), kvs,
          parse_message_line_ok now line _ d q h0 hl hd hq, rfl⟩
      | null =>
        exact Or.inr (Or.inr ⟨_, .null,
          parse_message_line_err now line .null _ h0 hl
            (resolveDeviceId_nonobj .null (fun kvs h => Json.noConfusion h)),
          rfl, fun kvs h => Json.noConfusion h⟩)
      | bool b =>
        exact Or.inr (Or.inr ⟨_, .bool b,
          parse_message_line_err now line (.bool b) _ h0 hl
            (resolveDeviceId_nonobj (.bool b) (fun kvs h => Json.noConfusion h)),
          rfl, fun kvs h => Json.noConfusion h⟩)
      | num q =>
        exact Or.inr (Or.inr ⟨_, .num q,
          parse_message_line_err now line (.num q) _ h0 hl
            (resolveDeviceId_nonobj (.num q) (fun kvs h => Json.noConfusion h)),
          rfl, fun kvs h => Json.noConfusion h⟩)
      | str s =>
        exact Or.inr (Or.inr ⟨_, .str s,
          parse_message_line_err now line (.str s) _ h0 hl
            (resolveDeviceId_nonobj (.str s) (fun kvs h => Json.noConfusion h)),
          rfl, fun kvs h => Json.noConfusion h⟩)
      | arr xs =>
        exact Or.inr (Or.inr ⟨_, .arr xs,
          parse_message_line_err now line (.arr xs) _ h0 hl
            (resolveDeviceId_nonobj (.arr xs) (fun kvs h => Json.noConfusion h)),
          rfl, fun kvs h => Json.noConfusion h⟩)

/-- C1 counterexample: the line `5` is valid top-level JSON but not an
object; `parse_message_line` raises `AttributeError`, not the
`ValueError` the claim allows. -/
theorem c1_counterexample :
    parse_message_line 0 ("5")
      = .error (.attributeError ("'int' object has no attribute 'get'")) := by
  with_unfolding_all rfl

/-- C2 (amended): the claim said any present `device_id` value is used
verbatim; because the code chains Python `or`, that holds exactly for
truthy values: for every valid JSON object whose `device_id` maps to a
truthy value, `parse_message_line` resolves the identity to that exact
value. (Falsy values fall through — see the counterexample and C10.) -/
theorem c2_truthy_device_id_resolved (now : ℚ) (line : String)
    (kvs : List (String × Json)) (v : Json)
    (hne : pyStrip line ≠ "")
    (hloads : json_loads (pyStrip line) = .ok (.obj kvs))
    (hdev : Json.lookup kvs "device_id" = some v)
    (hv : v.truthy = true) :
    ∃ ts, parse_message_line now line = .ok (v, ts, json_dumps (.obj kvs)) := by
  obtain ⟨q, hq⟩ := resolveTs_obj_isOk now kvs
  refine ⟨q, parse_message_line_ok now line _ v q hne hloads ?_ hq⟩
  rw [resolveDeviceId_obj_eq, hdev]
  simp [hv]

/-- Witness for C2 at a concrete line with a truthy `device_id`. -/
theorem c2_witness :
    ∃ ts, parse_message_line 0 ("\x7b\"device_id\":\"dev01\"\x7d")
      = .ok (.str "dev01", ts, json_dumps (.obj [("device_id", .str "dev01")])) :=
  c2_truthy_device_id_resolved 0 ("\x7b\"device_id\":\"dev01\"\x7d")
    [("device_id", .str "dev01")] (.str "dev01")
    (by decide) (by with_unfolding_all rfl) (by with_unfolding_all rfl) (by decide)

/-- C2 counterexample: a present `device_id` holding the empty string is
not resolved verbatim — the identity falls through to `"unknown"`. -/
theorem c2_counterexample :
    parse_message_line 0 ("\x7b\"device_id\":\"\"\x7d")
      = .ok (.str "unknown", 0, "\x7b\"device_id\": \"\"\x7d")
    ∧ Json.str "unknown" ≠ Json.str "" :=
  ⟨by with_unfolding_all rfl, by decide⟩

/-- C4 (amended): the claim said any numeric `timestamp`/`ts` value —
including `0` and very large values — resolves exactly; in the code the
`or`-chain drops a zero `timestamp`, and `datetime.fromtimestamp` range
errors are swallowed into the current-time default. What holds: whenever
the `or`-resolved candidate is a number inside the representable
`datetime` range, the resolved instant is exactly that epoch value. -/
theorem c4_numeric_timestamp_exact (now : ℚ) (line : String)
    (kvs : List (String × Json)) (q : ℚ)
    (hne : pyStrip line ≠ "")
    (hloads : json_loads (pyStrip line) = .ok (.obj kvs))
    (hcand : tsCandidate (.obj kvs) = .ok (.num q))
    (hlo : EPOCH_MIN ≤ q) (hhi : q ≤ EPOCH_MAX) :
    ∃ d, parse_message_line now line = .ok (d, q, json_dumps (.obj kvs)) := by
  obtain ⟨d, hd⟩ := resolveDeviceId_obj_isOk kvs
  refine ⟨d, parse_message_line_ok now line _ d q hne hloads hd ?_⟩
  have hts : tsFromValue (.num q) = some q := by
    simp [tsFromValue, Json.isNumericPy, Json.pyFloat, fromtimestampUtc, hlo, hhi]
  rw [resolveTs_of_candidate now _ _ hcand, hts]
  rfl

/-- Witness for C4 at a concrete line with a numeric `ts`. -/
theorem c4_witness :
    ∃ d, parse_message_line 999 ("\x7b\"ts\":1735732800\x7d")
      = .ok (d, 1735732800, json_dumps (.obj [("ts", .num 1735732800)])) :=
  c4_numeric_timestamp_exact 999 ("\x7b\"ts\":1735732800\x7d")
    [("ts", .num 1735732800)] 1735732800
    (by decide) (by with_unfolding_all rfl) (by with_unfolding_all rfl)
    (by norm_num [EPOCH_MIN]) (by norm_num [EPOCH_MAX])

/-- C4 counterexample: a `timestamp` field holding numeric `0` is not
resolved to epoch 0 — the parse substitutes the current time (999 in
this run). -/
theorem c4_counterexample :
    parse_message_line 999 ("\x7b\"timestamp\":0\x7d")
      = .ok (.str "unknown", 999, "\x7b\"timestamp\": 0\x7d")
    ∧ (999 : ℚ) ≠ 0 :=
  ⟨by with_unfolding_all rfl, by norm_num⟩

theorem resolveDeviceId_no_valueError (obj : Json) (m : String) :
    resolveDeviceId obj ≠ .error (.valueError m) := by
  cases obj
  case obj kvs => rw [resolveDeviceId_obj_eq]; simp
  all_goals simp [resolveDeviceId, Json.pyGet, Bind.bind, Except.bind]

/-- C5 (amended): the claim said parsing is a pure function of the input
for every valid line, including lines with no resolvable timestamp; in
fact a line with no resolvable timestamp gets the wall clock, so two
parses can differ. What holds: whenever the timestamp resolves from the
message content, the parse result does not depend on the clock at all. -/
theorem c5_deterministic_with_resolvable_timestamp (now1 now2 : ℚ) (line : String)
    (obj : Json) (q : ℚ)
    (hloads : json_loads (pyStrip line) = .ok obj)
    (hres : resolveTsOpt obj = .ok (some q)) :
    parse_message_line now1 line = parse_message_line now2 line := by
  by_cases h0 : pyStrip line = ""
  · rw [parse_message_line_empty now1 line h0, parse_message_line_empty now2 line h0]
  · have hts : ∀ n : ℚ, resolveTs n obj = .ok q := fun n => by
      simp [resolveTs, Bind.bind, Except.bind, Pure.pure, Except.pure, hres]
    cases hd : resolveDeviceId obj with
    | ok d =>
      rw [parse_message_line_ok now1 line obj d q h0 hloads hd (hts now1),
          parse_message_line_ok now2 line obj d q h0 hloads hd (hts now2)]
    | error e =>
      cases e with
      | attributeError m =>
        rw [parse_message_line_err now1 line obj m h0 hloads hd,
            parse_message_line_err now2 line obj m h0 hloads hd]
      | valueError m => exact absurd hd (resolveDeviceId_no_valueError obj m)

/-- Witness for C5: two clocks, one line with a resolvable timestamp. -/
theorem c5_witness :
    parse_message_line 3 ("\x7b\"ts\":1\x7d") = parse_message_line 7 ("\x7b\"ts\":1\x7d") :=
  c5_deterministic_with_resolvable_timestamp 3 7 ("\x7b\"ts\":1\x7d")
    (.obj [("ts", .num 1)]) 1
    (by with_unfolding_all rfl) (by with_unfolding_all rfl)

/-- C5 counterexample: a line with no resolvable timestamp parses to
different triples under different clock readings, so parsing is not a
pure function of the line alone. -/
theorem c5_counterexample :
    parse_message_line 0 ("\x7b\x7d") = .ok (.str "unknown", 0, json_dumps (.obj []))
    ∧ parse_message_line 1 ("\x7b\x7d") = .ok (.str "unknown", 1, json_dumps (.obj []))
    ∧ parse_message_line 0 ("\x7b\x7d") ≠ parse_message_line 1 ("\x7b\x7d") := by
  refine ⟨by with_unfolding_all rfl, by with_unfolding_all rfl, ?_⟩
  intro h
  rw [(by with_unfolding_all rfl :
        parse_message_line 0 ("\x7b\x7d") = .ok (.str "unknown", 0, json_dumps (.obj []))),
      (by with_unfolding_all rfl :
        parse_message_line 1 ("\x7b\x7d") = .ok (.str "unknown", 1, json_dumps (.obj [])))] at h
  simp at h

theorem lookup_cons (a : String) (b : Json) (rest : List (String × Json)) (k2 : String) :
    Json.lookup ((a, b) :: rest) k2 = if a = k2 then some b else Json.lookup rest k2 := by
  by_cases h : a = k2
  · unfold Json.lookup
    rw [List.find?_cons_of_pos _ (by simp [h])]
    simp [h]
  · unfold Json.lookup
    rw [List.find?_cons_of_neg _ (by simp [h])]
    simp [h]

theorem eraseKey_cons (k a : String) (b : Json) (rest : List (String × Json)) :
    eraseKey k ((a, b) :: rest) =
      if a = k then eraseKey k rest else (a, b) :: eraseKey k rest := by
  by_cases h : a = k <;> simp [eraseKey, List.filter_cons, h]

theorem lookup_eraseKey_self (k : String) (kvs : List (String × Json)) :
    Json.lookup (eraseKey k kvs) k = none := by
  induction kvs with
  | nil => rfl
  | cons kv rest ih =>
    obtain ⟨a, b⟩ := kv
    by_cases h : a = k
    · rw [eraseKey_cons, if_pos h]
      exact ih
    · rw [eraseKey_cons, if_neg h, lookup_cons, if_neg h]
      exact ih

theorem lookup_eraseKey_ne (k k2 : String) (kvs : List (String × Json)) (hkk : k2 ≠ k) :
    Json.lookup (eraseKey k kvs) k2 = Json.lookup kvs k2 := by
  induction kvs with
  | nil => rfl
  | cons kv rest ih =>
    obtain ⟨a, b⟩ := kv
    rw [lookup_cons]
    by_cases h : a = k
    · rw [eraseKey_cons, if_pos h, if_neg (by rw [h]; exact fun hc => hkk hc.symm)]
      exact ih
    · rw [eraseKey_cons, if_neg h, lookup_cons]
      by_cases h3 : a = k2
      · rw [if_pos h3, if_pos h3]
      · rw [if_neg h3, if_neg h3]
        exact ih

theorem truthy_null : Json.null.truthy = false := rfl

/-- C10: a present-but-falsy `device_id` resolves the identity exactly as
if the field were absent (erasing the binding changes nothing), and a
present-but-falsy `timestamp` resolves the candidate exactly as if the
field were absent; when the fallback fields are also missing, identity
becomes `"unknown"` and the timestamp becomes the current-time default. -/
theorem c10_falsy_fields_fall_through (now : ℚ) (line : String)
    (kvs : List (String × Json)) (v w : Json)
    (hdv : Json.lookup kvs "device_id" = some v) (hvf : v.truthy = false)
    (htv : Json.lookup kvs "timestamp" = some w) (hwf : w.truthy = false) :
    resolveDeviceId (.obj kvs) = resolveDeviceId (.obj (eraseKey "device_id" kvs))
    ∧ tsCandidate (.obj kvs) = tsCandidate (.obj (eraseKey "timestamp" kvs))
    ∧ (Json.lookup kvs "dev_id" = none → Json.lookup kvs "ts" = none →
        pyStrip line ≠ "" → json_loads (pyStrip line) = .ok (.obj kvs) →
        parse_message_line now line = .ok (.str "unknown", now, json_dumps (.obj kvs))) := by
  refine ⟨?_, ?_, ?_⟩
  · rw [resolveDeviceId_obj_eq, resolveDeviceId_obj_eq, hdv, lookup_eraseKey_self,
      lookup_eraseKey_ne "device_id" "dev_id" kvs (by decide)]
    simp [hvf, truthy_null]
  · rw [tsCandidate_obj_eq, tsCandidate_obj_eq, htv, lookup_eraseKey_self,
      lookup_eraseKey_ne "timestamp" "ts" kvs (by decide)]
    simp [hwf, truthy_null]
  · intro h1 h2 hne hloads
    have hd : resolveDeviceId (.obj kvs) = .ok (.str "unknown") := by
      rw [resolveDeviceId_obj_eq, hdv, h1]
      simp [hvf, truthy_null]
    have ht : resolveTs now (.obj kvs) = .ok now := by
      rw [resolveTs_of_candidate now _ _ (tsCandidate_obj_eq kvs), htv, h2]
      simp [hwf, truthy_null, tsFromValue]
    exact parse_message_line_ok now line _ _ now hne hloads hd ht

/-- Witness for C10 at an object with falsy `device_id` and `timestamp`. -/
theorem c10_witness :
    resolveDeviceId (.obj [("device_id", .str ""), ("timestamp", .num 0)])
      = resolveDeviceId (.obj (eraseKey "device_id"
          [("device_id", .str ""), ("timestamp", .num 0)]))
    ∧ tsCandidate (.obj [("device_id", .str ""), ("timestamp", .num 0)])
      = tsCandidate (.obj (eraseKey "timestamp"
          [("device_id", .str ""), ("timestamp", .num 0)]))
    ∧ parse_message_line 42 ("\x7b\"device_id\":\"\",\"timestamp\":0\x7d")
      = .ok (.str "unknown", 42,
          json_dumps (.obj [("device_id", .str ""), ("timestamp", .num 0)])) := by
  have h := c10_falsy_fields_fall_through 42 ("\x7b\"device_id\":\"\",\"timestamp\":0\x7d")
    [("device_id", .str ""), ("timestamp", .num 0)] (.str "") (.num 0)
    (by with_unfolding_all rfl) (by with_unfolding_all rfl)
    (by with_unfolding_all rfl) (by with_unfolding_all rfl)
  exact ⟨h.1, h.2.1, h.2.2 (by with_unfolding_all rfl) (by with_unfolding_all rfl)
    (by decide) (by with_unfolding_all rfl)⟩

/-- C6 (amended): the claim said a broker connection failure at boot is
logged and only disables publishing; in the code only the
config-disabled and library-missing cases are non-fatal — `run` awaits
`init_rabbit` with no handler, so an unreachable broker (while enabled
and installed) aborts startup, exactly like a storage failure. This
characterizes the whole boot outcome. -/
theorem c6_startup_characterization (env : BootEnv) :
    run_startup env =
      (if env.dbReachable = false then .error .dbError
       else if env.rabbitmqEnabled && env.aioPikaInstalled && !env.busReachable then
         .error .busError
       else .ok ⟨true, env.rabbitmqEnabled && env.aioPikaInstalled && env.busReachable⟩) := by
  rcases env with ⟨a, b, c, d⟩
  cases a <;> cases b <;> cases c <;> cases d <;> rfl

/-- C6 counterexample: with RabbitMQ enabled, the library installed and
the broker unreachable, the startup sequence propagates the bus error
and aborts instead of continuing with publishing disabled. -/
theorem c6_counterexample :
    run_startup ⟨true, true, false, true⟩ = .error .busError
    ∧ init_rabbit ⟨true, true, false, true⟩ = .error .busError :=
  ⟨rfl, rfl⟩
